import Mathlib

/-!
Shallow embedding of `src/new.py`, an interactive yt-dlp front-end.

The effectful parts of the Python program are modelled by passing the
relevant state explicitly:
  * the filesystem / search-path state seen by `find_ffmpeg_path` is a
    record `FS` (result of `shutil.which`, existence of candidate paths,
    path resolution);
  * the mutable global `DEFAULT_DOWNLOAD_PATH` read by
    `create_download_options` and mutated by `get_user_input` is threaded
    as an explicit `Globals` record / loop-state field;
  * one iteration of the `while True` loop of `main` is the function
    `loopIter`, which consumes the stdin answers and the download outcome
    of that iteration as an `IterInput` and produces the next loop state,
    the observable events (prints, the download call, the folder-open
    call, the continue prompt) and whether the loop exits.
-/

namespace YTDL

/-- One entry of the `postprocessors` list of the yt-dlp options
dictionary (source lines 78-82). -/
structure Postprocessor where
  key : String
  preferredcodec : String
  preferredquality : String
deriving DecidableEq, Repr

/-- The yt-dlp options dictionary built by `create_download_options`
(source lines 68-84).  The keys that are only conditionally inserted
(`postprocessors`, `extract_audio`) are modelled as `Option` fields,
`none` meaning the key is absent. -/
structure YdlOpts where
  outtmpl : String
  ignoreerrors : Bool
  ffmpeg_location : String
  restrictfilenames : Bool
  format : String
  postprocessors : Option (List Postprocessor)
  extract_audio : Option Bool
deriving DecidableEq, Repr

/-- The program state read by `create_download_options`: the mutable
global `DEFAULT_DOWNLOAD_PATH` together with the filesystem-dependent
`Path.resolve` operation. -/
structure Globals where
  DEFAULT_DOWNLOAD_PATH : String
  resolveP : String → String

/-- Source lines 63-86.  The Python function
`create_download_options(is_audio_only, ffmpeg_path)` reads the mutable
global `DEFAULT_DOWNLOAD_PATH` (passed here explicitly as `g`).  It
builds the output template by joining the resolved default download path
with the title/extension pattern, sets ignoreerrors, the ffmpeg
location, restrictfilenames and the format selector (combined
bestvideo*+bestaudio/best unless audio-only, else bestaudio/best), and
when audio-only it additionally inserts the FFmpegExtractAudio
postprocessor (codec mp3, quality 192) and the extract-audio flag. -/
def create_download_options (is_audio_only : Bool) (ffmpeg_path : String)
    (g : Globals) : YdlOpts :=
  let output_template :=
    g.resolveP g.DEFAULT_DOWNLOAD_PATH ++ "/%(title)s.%(ext)s"
  let ydl_opts : YdlOpts :=
    { outtmpl := output_template
      ignoreerrors := true
      ffmpeg_location := ffmpeg_path
      restrictfilenames := true
      format := if !is_audio_only then "bestvideo*+bestaudio/best"
                else "bestaudio/best"
      postprocessors := none
      extract_audio := none }
  if is_audio_only then
    { ydl_opts with
        postprocessors := some [{ key := "FFmpegExtractAudio",
                                  preferredcodec := "mp3",
                                  preferredquality := "192" }]
        extract_audio := some true }
  else ydl_opts

/-- The four hard-coded candidate paths of `find_ffmpeg_path`
(source lines 22-27). -/
def common_paths : List String :=
  ["C:/YT/ffmpeg/bin/ffmpeg.exe",
   "C:/YT/ffmpeg/ffmpeg.exe",
   "C:/ffmpeg/bin/ffmpeg.exe",
   "C:/ffmpeg/ffmpeg.exe"]

/-- The filesystem / environment state consulted by `find_ffmpeg_path`:
the result of `shutil.which("ffmpeg")`, the `Path.exists()` test and the
`Path.resolve()` operation. -/
structure FS where
  which : Option String
  pathExists : String → Bool
  resolveP : String → String

/-- Python truthiness of the result of `shutil.which` (the check
`if ffmpeg_exe:` on line 18): `None` and the empty string are falsy. -/
def pyTruthy : Option String → Bool
  | none => false
  | some s => !(s == "")

/-- The `for p in common_paths` loop of source lines 29-31: return
`str(p.resolve())` for the first candidate that exists. -/
def firstExisting (fs : FS) : List String → Option String
  | [] => none
  | p :: rest =>
      if fs.pathExists p then some (fs.resolveP p) else firstExisting fs rest

/-- Source lines 12-33.  `find_ffmpeg_path` first queries
`shutil.which("ffmpeg")` and returns its result when truthy; otherwise
it probes the fixed candidate paths in order and returns the resolved
form of the first one that exists on disk; otherwise it returns `None`
(here `none`). -/
def find_ffmpeg_path (fs : FS) : Option String :=
  match fs.which with
  | some s => if s == "" then firstExisting fs common_paths else some s
  | none => firstExisting fs common_paths

/-- Instrumented version of the candidate loop that also records which
candidate paths were probed with `p.exists()`. -/
def probeLoop (fs : FS) : List String → Option String × List String
  | [] => (none, [])
  | p :: rest =>
      if fs.pathExists p then (some (fs.resolveP p), [p])
      else
        let r := probeLoop fs rest
        (r.1, p :: r.2)

/-- Instrumented `find_ffmpeg_path`: same result, plus the list of fixed
candidate paths probed on disk. -/
def find_ffmpeg_path_traced (fs : FS) : Option String × List String :=
  match fs.which with
  | some s => if s == "" then probeLoop fs common_paths else (some s, [])
  | none => probeLoop fs common_paths

/-- Source lines 120-129: `main` calls `find_ffmpeg_path()` once; if the
result is falsy or equal to the bare command name ffmpeg it warns and
falls back to that bare command name; the program then continues either
way. -/
def startupFfmpegPath (found : Option String) : String :=
  match found with
  | none => "ffmpeg"
  | some s => if s == "" || s == "ffmpeg" then "ffmpeg" else s

/-- The Python string method lower, character by character.  (For the
inputs the program compares — ASCII letters and the Arabic token, which
has no case — this agrees with the Unicode lowering Python performs.) -/
def pyLower (s : String) : String := ⟨s.data.map Char.toLower⟩

/-- Source lines 104-111: the mode prompt loop.  Each answer is lowered;
an answer among the two tokens v and a is accepted and the loop ends
with the flag is_audio_only set to whether the lowered answer is a; any
other answer reprompts.  The
argument is the stream of stdin answers; `none` means no answer in the
stream is ever accepted (the loop reprompts past the end of the
stream). -/
def askMode : List String → Option Bool
  | [] => none
  | m :: rest =>
      let mode := pyLower m
      if mode ∈ ["v", "a"] then some (mode == "a") else askMode rest

/-- The stdin answers consumed by one call of `get_user_input`:
the URL (line 94), the destination-path override (line 99), and the
stream of answers to the mode prompt (line 105). -/
structure PromptInput where
  url : String
  pathOverride : String
  modeInputs : List String

/-- Source lines 88-112.  `get_user_input` reads the URL, then the
override (a non-empty answer reassigns the global `DEFAULT_DOWNLOAD_PATH`,
an empty one keeps it), then runs the mode loop.  `dest` is the global's
value at entry; the result is the global's new value together with the
returned pair `(url, is_audio_only)`, or `none` when the mode loop never
accepts an answer. -/
def get_user_input (dest : String) (inp : PromptInput) :
    Option (String × String × Bool) :=
  let dest1 := if inp.pathOverride == "" then dest else inp.pathOverride
  match askMode inp.modeInputs with
  | none => none
  | some is_audio_only => some (dest1, inp.url, is_audio_only)

/-- Outcome of the `ydl.download([url])` call of source line 158: normal
return, a raised `yt_dlp.utils.DownloadError`, or any other exception. -/
inductive DlOutcome where
  | success
  | downloadError (msg : String)
  | otherError (msg : String)
deriving DecidableEq, Repr

/-- Observable actions of one loop iteration: console prints, the
download-library call (with the options record it consumes), the
folder-open call, and reaching the continue prompt of line 177. -/
inductive Event where
  | printE (s : String)
  | download (opts : YdlOpts) (url : String)
  | openFolder (p : String)
  | askContinue
deriving DecidableEq

/-- Whether the loop exits (`break`) or runs another iteration. -/
inductive IterResult where
  | exit
  | again
deriving DecidableEq, Repr

/-- The state carried between iterations of `main`'s `while True` loop:
the global `DEFAULT_DOWNLOAD_PATH` and the `ffmpeg_path` local resolved
once before the loop. -/
structure LoopState where
  dest : String
  ffmpeg : String
deriving DecidableEq, Repr

/-- The environment and stdin/download nondeterminism consumed by one
loop iteration: the prompt answers, the result of
`DEFAULT_DOWNLOAD_PATH.mkdir(...)` on line 142 (`none` = success,
`some e` = exception `e`), the download outcome, and the answer to the
continue prompt on line 177. -/
structure IterInput where
  prompt : PromptInput
  mkdirErr : Option String
  outcome : DlOutcome
  contAnswer : String

/-- Per-process environment of the loop: the `Path.resolve` operation. -/
structure Env where
  resolveP : String → String

/-- The stop-token whitelist of source line 178. -/
def stop_tokens : List String := ["no", "n", "لا"]

/-- Banner printed on line 160 after a successful download. -/
def successBanner : String := "         🥳 Download operations complete!"

/-- Distinguished message printed on line 167 for `DownloadError`. -/
def downloadFailMsg : String :=
  "❌ Download failed. Ensure the URL is correct and the library is updated."

/-- Generic message printed on line 173 for any other exception. -/
def unexpectedFailMsg (e : String) : String :=
  "❌ An unexpected error occurred. Error details: " ++ e

/-- Message printed on line 137 when the entered URL is empty. -/
def noUrlMsg : String := "❌ No URL entered. Returning to the start."

/-- Message printed on line 146 when creating the save folder raises. -/
def mkdirFailMsg (e : String) : String :=
  "❌ Failed to create save folder: " ++ e

/-- The `try/except` block of source lines 156-174 around the scoped
`yt_dlp.YoutubeDL(...)` session: on success, print the banner and open
the (resolved) destination folder; on `DownloadError`, print the
distinguished message and the error details; on any other exception,
print the generic message.  The download call itself happens in every
case (the exception is raised by it). -/
def downloadPhase (opts : YdlOpts) (url : String) (destResolved : String) :
    DlOutcome → List Event
  | .success =>
      [.download opts url, .printE successBanner, .openFolder destResolved]
  | .downloadError e =>
      [.download opts url, .printE downloadFailMsg,
       .printE ("Error details: " ++ e)]
  | .otherError e =>
      [.download opts url, .printE (unexpectedFailMsg e)]

/-- The iteration body after `get_user_input` has returned (the state update
of the global has already happened): the empty-URL check and `continue`
of lines 136-138, the `mkdir` `try/except` and `continue` of lines
141-147, the options build of line 150, the download `try/except` of
lines 156-174, and the continue prompt of lines 177-180. -/
def iterBody (env : Env) (ffmpeg : String) (dest1 : String) (inp : IterInput)
    (url : String) (is_audio_only : Bool) : List Event × IterResult :=
  if url == "" then
    ([.printE noUrlMsg], .again)
  else
    match inp.mkdirErr with
    | some e => ([.printE (mkdirFailMsg e)], .again)
    | none =>
        let g : Globals :=
          { DEFAULT_DOWNLOAD_PATH := dest1, resolveP := env.resolveP }
        let ydl_options := create_download_options is_audio_only ffmpeg g
        (downloadPhase ydl_options url (env.resolveP dest1) inp.outcome
           ++ [.askContinue],
         if stop_tokens.contains (pyLower inp.contAnswer) then .exit
         else .again)

/-- One full iteration of the `while True` loop: run `get_user_input`
(which may update the destination global), then `iterBody`.  Returns the
next loop state, the observable events, and whether the loop exits;
`none` when the mode prompt never accepts an answer (the iteration
blocks there forever). -/
def loopIter (env : Env) (st : LoopState) (inp : IterInput) :
    Option (LoopState × List Event × IterResult) :=
  match get_user_input st.dest inp.prompt with
  | none => none
  | some (dest1, url, is_audio_only) =>
      let st1 : LoopState := { dest := dest1, ffmpeg := st.ffmpeg }
      some (st1, iterBody env st.ffmpeg dest1 inp url is_audio_only)

/-- The loop state at the first iteration: the initial global default
path and the `ffmpeg_path` computed by lines 120-129. -/
def initialState (fs : FS) (defaultDest : String) : LoopState :=
  { dest := defaultDest, ffmpeg := startupFfmpegPath (find_ffmpeg_path fs) }

/-- Iterated loop: run `loopIter` on a list of per-iteration inputs,
stopping early on `exit`; `none` when some iteration blocks at the mode
prompt. -/
def runIters (env : Env) (st : LoopState) : List IterInput → Option LoopState
  | [] => some st
  | i :: rest =>
      match loopIter env st i with
      | none => none
      | some (st', _, .exit) => some st'
      | some (st', _, .again) => runIters env st' rest

/-- Spec-side predicate (from the words of the specification): the
continue-prompt answer matches an entry of the stop-token whitelist
under case-insensitive exact comparison. -/
def ciMatchesStop (s : String) : Bool :=
  stop_tokens.any fun t => pyLower s == pyLower t

/-- Concrete iteration input used to witness the report-phase theorem:
a non-empty URL, no override, a valid mode answer, successful folder
creation, and a library download error. -/
def C3w_inp : IterInput := ⟨⟨"u", "", ["v"]⟩, none, .downloadError "boom", ""⟩

/-- The event list produced by `loopIter` on `C3w_inp`. -/
def C3w_ev : List Event :=
  downloadPhase
    (create_download_options false "ff"
      { DEFAULT_DOWNLOAD_PATH := "d0", resolveP := fun s => s })
    "u" "d0" (.downloadError "boom") ++ [.askContinue]

/-- Concrete iteration input used to witness the continue-prompt
theorem: a successful download followed by the continue answer NO. -/
def C9w_inp : IterInput := ⟨⟨"u", "", ["v"]⟩, none, .success, "NO"⟩

/-- The event list produced by `loopIter` on `C9w_inp`. -/
def C9w_ev : List Event :=
  downloadPhase
    (create_download_options false "ff"
      { DEFAULT_DOWNLOAD_PATH := "d0", resolveP := fun s => s })
    "u" "d0" .success ++ [.askContinue]

/-! ### Helper lemmas -/

/-- The candidate probing loop returns the first existing candidate,
resolved. -/
lemma firstExisting_eq_find (fs : FS) (l : List String) :
    firstExisting fs l = (l.find? fs.pathExists).map fs.resolveP := by
  induction l with
  | nil => rfl
  | cons p rest ih =>
      by_cases h : fs.pathExists p
      · simp [firstExisting, List.find?_cons_of_pos, h]
      · simp [firstExisting, List.find?_cons_of_neg, h, ih]

/-- An iteration blocks (reprompts forever) exactly when no mode answer
is ever accepted. -/
lemma loopIter_none (env : Env) (st : LoopState) (inp : IterInput)
    (h : askMode inp.prompt.modeInputs = none) : loopIter env st inp = none := by
  simp [loopIter, get_user_input, h]

/-- Unfolding of `loopIter` once the mode loop has accepted an answer. -/
lemma loopIter_some (env : Env) (st : LoopState) (inp : IterInput) (b : Bool)
    (h : askMode inp.prompt.modeInputs = some b) :
    loopIter env st inp =
      some ({ dest := if inp.prompt.pathOverride == "" then st.dest
                      else inp.prompt.pathOverride, ffmpeg := st.ffmpeg },
            iterBody env st.ffmpeg
              (if inp.prompt.pathOverride == "" then st.dest
               else inp.prompt.pathOverride) inp inp.prompt.url b) := by
  simp [loopIter, get_user_input, h]

/-- Unfolding of `iterBody` on the download branch (non-empty URL,
successful folder creation). -/
lemma iterBody_download (env : Env) (ffmpeg dest1 : String) (inp : IterInput)
    (url : String) (b : Bool) (hurl : url ≠ "") (hmk : inp.mkdirErr = none) :
    iterBody env ffmpeg dest1 inp url b =
      (downloadPhase
         (create_download_options b ffmpeg
           { DEFAULT_DOWNLOAD_PATH := dest1, resolveP := env.resolveP })
         url (env.resolveP dest1) inp.outcome ++ [.askContinue],
       if stop_tokens.contains (pyLower inp.contAnswer) then .exit
       else .again) := by
  simp [iterBody, hurl, hmk]

/-- The next loop state is fully determined by the previous one and the
override answer: the destination with the override applied, the binary
path unchanged. -/
lemma loopIter_state (env : Env) (st : LoopState) (inp : IterInput)
    (st' : LoopState) (ev : List Event) (r : IterResult)
    (hit : loopIter env st inp = some (st', ev, r)) :
    st' = { dest := if inp.prompt.pathOverride == "" then st.dest
                    else inp.prompt.pathOverride, ffmpeg := st.ffmpeg } := by
  cases hask : askMode inp.prompt.modeInputs with
  | none => rw [loopIter_none env st inp hask] at hit; cases hit
  | some b =>
      rw [loopIter_some env st inp b hask] at hit
      simp only [Option.some.injEq, Prod.mk.injEq] at hit
      exact hit.1.symm

/-- The lowered continue answer is in the stop list exactly when the
spec-side case-insensitive match succeeds. -/
lemma contains_lower_eq_ciMatchesStop (s : String) :
    stop_tokens.contains (pyLower s) = ciMatchesStop s := by
  have h1 : pyLower "no" = "no" := by decide
  have h2 : pyLower "n" = "n" := by decide
  have h3 : pyLower "لا" = "لا" := by decide
  simp [ciMatchesStop, stop_tokens, List.contains, List.elem, List.any,
        h1, h2, h3]
  cases pyLower s == "no" <;> cases pyLower s == "n" <;>
    cases pyLower s == "لا" <;> rfl

/-! ### Claim theorems -/

/-- Claim C1, counterexample: the Options Builder is NOT referentially
transparent in the pair (audio-only flag, binary path) alone.  Two calls
with the same flag `false` and the same binary path return different
configuration records when the mutable global destination directory
differs between the calls: the output template embeds the destination. -/
theorem C1_counterexample :
    create_download_options false "ffmpeg"
        { DEFAULT_DOWNLOAD_PATH := "C:/A", resolveP := fun s => s } ≠
      create_download_options false "ffmpeg"
        { DEFAULT_DOWNLOAD_PATH := "C:/B", resolveP := fun s => s } := by
  decide

/-- Claim C1, amended: the Options Builder is referentially transparent
in (audio-only flag, binary path, resolved destination directory): two
calls with the same flag and binary path return identical configuration
records whenever the resolved value of the mutable destination global is
also the same; no other program state influences the record. -/
theorem C1_options_builder_determined (a : Bool) (p : String) (g g' : Globals)
    (h : g.resolveP g.DEFAULT_DOWNLOAD_PATH =
         g'.resolveP g'.DEFAULT_DOWNLOAD_PATH) :
    create_download_options a p g = create_download_options a p g' := by
  simp [create_download_options, h]

/-- Witness for the amended C1 theorem at concrete globals whose
destinations resolve to the same path. -/
theorem C1_witness :
    create_download_options true "ffmpeg"
        { DEFAULT_DOWNLOAD_PATH := "C:/A", resolveP := fun s => s } =
      create_download_options true "ffmpeg"
        { DEFAULT_DOWNLOAD_PATH := "X", resolveP := fun _ => "C:/A" } :=
  C1_options_builder_determined true "ffmpeg"
    { DEFAULT_DOWNLOAD_PATH := "C:/A", resolveP := fun s => s }
    { DEFAULT_DOWNLOAD_PATH := "X", resolveP := fun _ => "C:/A" } rfl

/-- Claim C2: for every filesystem / search-path state, the Binary
Locator returns the first match in priority order: a truthy search-path
hit is returned as is and no fixed candidate is probed (the probe trace
is empty); otherwise the result is the first of the four hard-coded
candidates that exists on disk, resolved (`List.find?` returns the first
list entry satisfying the predicate). -/
theorem C2_binary_locator (fs : FS) :
    (∀ s, fs.which = some s → s ≠ "" →
        find_ffmpeg_path_traced fs = (some s, []) ∧
        find_ffmpeg_path fs = some s) ∧
    (pyTruthy fs.which = false →
        find_ffmpeg_path fs =
          (common_paths.find? fs.pathExists).map fs.resolveP) := by
  constructor
  · intro s hs hne
    constructor
    · simp [find_ffmpeg_path_traced, hs, hne]
    · simp [find_ffmpeg_path, hs, hne]
  · intro h
    cases hw : fs.which with
    | none => simp [find_ffmpeg_path, hw, firstExisting_eq_find]
    | some s =>
        rw [hw] at h
        simp [pyTruthy] at h
        simp [find_ffmpeg_path, hw, h, firstExisting_eq_find]

/-- Witness for C2: a search-path hit is returned untouched with no
candidate probed; with no search-path hit, the second candidate (the
first existing one) is returned. -/
theorem C2_witness :
    find_ffmpeg_path_traced
        { which := some "/usr/bin/ffmpeg", pathExists := fun _ => false,
          resolveP := fun s => s } = (some "/usr/bin/ffmpeg", []) ∧
    find_ffmpeg_path
        { which := none,
          pathExists := fun p => p == "C:/YT/ffmpeg/ffmpeg.exe",
          resolveP := fun s => s } =
      (common_paths.find? fun p => p == "C:/YT/ffmpeg/ffmpeg.exe").map
        fun s => s :=
  ⟨((C2_binary_locator _).1 "/usr/bin/ffmpeg" rfl (by decide)).1,
   (C2_binary_locator _).2 rfl⟩

/-- Claim C4: for every binary path and every destination state, the
audio-only configuration record contains exactly the FFmpegExtractAudio
post-processing directive with codec mp3 at quality 192 and marks audio
extraction as requested; the non-audio record contains no
post-processing directive and no extraction mark. -/
theorem C4_audio_postprocessing (p : String) (g : Globals) :
    ((create_download_options true p g).postprocessors =
        some [{ key := "FFmpegExtractAudio", preferredcodec := "mp3",
                preferredquality := "192" }] ∧
     (create_download_options true p g).extract_audio = some true) ∧
    ((create_download_options false p g).postprocessors = none ∧
     (create_download_options false p g).extract_audio = none) := by
  simp [create_download_options]

/-- Claim C3: in every loop iteration that reaches the download attempt
(non-empty URL, folder creation succeeded): on success the completion
banner is printed and the Folder Opener is invoked on the (resolved)
destination directory; on the library download error the distinguished
failure message is printed; on any other exception the generic failure
message is printed; in both failure cases the Folder Opener is never
invoked; in all cases the iteration proceeds to the continue prompt
instead of terminating the process. -/
theorem C3_report_phase (env : Env) (st : LoopState) (inp : IterInput)
    (st' : LoopState) (ev : List Event) (r : IterResult)
    (hurl : inp.prompt.url ≠ "")
    (hmk : inp.mkdirErr = none)
    (hit : loopIter env st inp = some (st', ev, r)) :
    Event.askContinue ∈ ev ∧
    (inp.outcome = .success →
        Event.printE successBanner ∈ ev ∧
        Event.openFolder (env.resolveP st'.dest) ∈ ev) ∧
    (∀ e, inp.outcome = .downloadError e →
        Event.printE downloadFailMsg ∈ ev ∧ ∀ p, Event.openFolder p ∉ ev) ∧
    (∀ e, inp.outcome = .otherError e →
        Event.printE (unexpectedFailMsg e) ∈ ev ∧ ∀ p, Event.openFolder p ∉ ev) := by
  cases hask : askMode inp.prompt.modeInputs with
  | none => rw [loopIter_none env st inp hask] at hit; cases hit
  | some b =>
      rw [loopIter_some env st inp b hask] at hit
      rw [iterBody_download env st.ffmpeg _ inp inp.prompt.url b hurl hmk] at hit
      simp only [Option.some.injEq, Prod.mk.injEq] at hit
      obtain ⟨hst, hev, hr⟩ := hit
      subst hst
      subst hev
      refine ⟨by simp, ?_, ?_, ?_⟩
      · intro hs
        rw [hs]
        simp [downloadPhase]
      · intro e he
        rw [he]
        simp [downloadPhase]
      · intro e he
        rw [he]
        simp [downloadPhase]

/-- Witness for C3 at a concrete iteration whose download raises the
library error: the continue prompt is reached and the distinguished
message is printed. -/
theorem C3_witness :
    Event.askContinue ∈ C3w_ev ∧ Event.printE downloadFailMsg ∈ C3w_ev :=
  ⟨(C3_report_phase ⟨fun s => s⟩ ⟨"d0", "ff"⟩ C3w_inp ⟨"d0", "ff"⟩ C3w_ev
      .again (by decide) rfl rfl).1,
   ((C3_report_phase ⟨fun s => s⟩ ⟨"d0", "ff"⟩ C3w_inp ⟨"d0", "ff"⟩ C3w_ev
      .again (by decide) rfl rfl).2.2.1 "boom" rfl).1⟩

/-- Claim C5: the only state carried from one loop iteration to the next
is the destination directory and the cached binary path.  The next loop
state is exactly the previous one with a non-empty override answer
replacing the destination (an empty answer preserving it) and the binary
path unchanged; consequently, over any run whose iterations all answer
the override prompt with the empty string, the destination (and the
binary path) persists unchanged. -/
theorem C5_loop_state (env : Env) :
    (∀ st inp st' ev r, loopIter env st inp = some (st', ev, r) →
        st' = { dest := if inp.prompt.pathOverride == "" then st.dest
                        else inp.prompt.pathOverride,
                ffmpeg := st.ffmpeg }) ∧
    (∀ st inps st', (∀ i ∈ inps, i.prompt.pathOverride = "") →
        runIters env st inps = some st' → st' = st) := by
  constructor
  · intro st inp st' ev r hit
    exact loopIter_state env st inp st' ev r hit
  · intro st inps
    induction inps generalizing st with
    | nil =>
        intro st' _ hrun
        simp [runIters] at hrun
        exact hrun.symm
    | cons i rest ih =>
        intro st' hov hrun
        unfold runIters at hrun
        cases hli : loopIter env st i with
        | none => rw [hli] at hrun; cases hrun
        | some trip =>
            obtain ⟨st1, ev1, r1⟩ := trip
            have h1 : st1 = st := by
              have h2 := loopIter_state env st i st1 ev1 r1 hli
              rw [hov i (List.mem_cons_self i rest)] at h2
              simpa using h2
            rw [hli] at hrun
            cases r1 with
            | exit =>
                simp only [Option.some.injEq] at hrun
                rw [← hrun, h1]
            | again =>
                subst h1
                exact ih st1 st' (fun j hj => hov j (List.mem_cons_of_mem i hj))
                  hrun

/-- Witness for C5: a non-empty override replaces the destination in the
carried state; an empty run preserves the state. -/
theorem C5_witness :
    ((⟨"d1", "ff"⟩ : LoopState) =
      { dest := if ("d1" : String) == "" then "d0" else "d1",
        ffmpeg := "ff" }) ∧
    ((⟨"d0", "ff"⟩ : LoopState) = ⟨"d0", "ff"⟩) :=
  ⟨(C5_loop_state ⟨fun s => s⟩).1 ⟨"d0", "ff"⟩
      ⟨⟨"", "d1", ["v"]⟩, none, .success, ""⟩ ⟨"d1", "ff"⟩
      [.printE noUrlMsg] .again rfl,
   (C5_loop_state ⟨fun s => s⟩).2 ⟨"d0", "ff"⟩ [] ⟨"d0", "ff"⟩
      (fun i hi => absurd hi (List.not_mem_nil i)) rfl⟩

/-- Claim C6: in every loop iteration where creating the destination
directory raises, the iteration prints the failure report and produces
no further event — in particular the download library is never invoked
(no download event, no options record consumed) and the continue prompt
is not reached — and the loop runs again, returning to the prompt
state. -/
theorem C6_mkdir_failure (env : Env) (st : LoopState) (inp : IterInput)
    (b : Bool) (e : String)
    (hm : askMode inp.prompt.modeInputs = some b)
    (hurl : inp.prompt.url ≠ "")
    (hmk : inp.mkdirErr = some e) :
    loopIter env st inp =
      some ({ dest := if inp.prompt.pathOverride == "" then st.dest
                      else inp.prompt.pathOverride, ffmpeg := st.ffmpeg },
            [.printE (mkdirFailMsg e)], .again) := by
  rw [loopIter_some env st inp b hm]
  simp [iterBody, hurl, hmk]

/-- Witness for C6 at a concrete iteration whose folder creation is
denied. -/
theorem C6_witness :
    loopIter ⟨fun s => s⟩ ⟨"d0", "ff"⟩
        ⟨⟨"u", "", ["a"]⟩, some "denied", .success, ""⟩ =
      some ({ dest := if ("" : String) == "" then "d0" else "",
              ffmpeg := "ff" },
            [.printE (mkdirFailMsg "denied")], .again) :=
  C6_mkdir_failure ⟨fun s => s⟩ ⟨"d0", "ff"⟩
    ⟨⟨"u", "", ["a"]⟩, some "denied", .success, ""⟩ true "denied"
    rfl (by decide) rfl

/-- Claim C7: when the search path yields no truthy hit and none of the
four fixed candidates exists on disk, the Binary Locator returns the
not-found sentinel `none` (it is a total function — no error is raised),
and the program continues into the loop with the degraded bare command
name as its binary path instead of aborting. -/
theorem C7_locator_not_found (fs : FS) (d : String)
    (hw : pyTruthy fs.which = false)
    (hx : ∀ p ∈ common_paths, fs.pathExists p = false) :
    find_ffmpeg_path fs = none ∧
    initialState fs d = { dest := d, ffmpeg := "ffmpeg" } := by
  have hfind : common_paths.find? fs.pathExists = none := by
    rw [List.find?_eq_none]
    intro x hxm
    simp [hx x hxm]
  have hfe : firstExisting fs common_paths = none := by
    rw [firstExisting_eq_find, hfind]; rfl
  have hmain : find_ffmpeg_path fs = none := by
    cases hwv : fs.which with
    | none => simp [find_ffmpeg_path, hwv, hfe]
    | some s =>
        rw [hwv] at hw
        simp [pyTruthy] at hw
        simp [find_ffmpeg_path, hwv, hw, hfe]
  exact ⟨hmain, by simp [initialState, hmain, startupFfmpegPath]⟩

/-- Witness for C7 on an empty filesystem. -/
theorem C7_witness :
    find_ffmpeg_path
        { which := none, pathExists := fun _ => false,
          resolveP := fun s => s } = none ∧
    initialState
        { which := none, pathExists := fun _ => false,
          resolveP := fun s => s } "home/Downloads/YT_Downloads" =
      { dest := "home/Downloads/YT_Downloads", ffmpeg := "ffmpeg" } :=
  C7_locator_not_found _ _ rfl (fun _ _ => rfl)

/-- Claim C8: the mode prompt accepts exactly the two designated tokens
compared case-insensitively — any answer lowering to v or to a is
accepted, the produced audio-only flag being true exactly when the
lowered answer is the audio token a — while any other answer (including
the empty string, whose lowering is neither token) makes the loop
reprompt on the remaining answers. -/
theorem C8_mode_prompt (m : String) (rest : List String) :
    (pyLower m = "v" ∨ pyLower m = "a" →
        askMode (m :: rest) = some (pyLower m == "a")) ∧
    (pyLower m ≠ "v" → pyLower m ≠ "a" →
        askMode (m :: rest) = askMode rest) ∧
    askMode ([] : List String) = none := by
  refine ⟨?_, ?_, rfl⟩
  · rintro (h | h) <;> simp [askMode, h]
  · intro h1 h2
    simp [askMode, h1, h2]

/-- Witness for C8: the upper-case video token is accepted and produces
the audio-only flag false. -/
theorem C8_witness :
    pyLower "V" = "v" ∧ askMode ["V"] = some (pyLower "V" == "a") :=
  ⟨by decide, (C8_mode_prompt "V" []).1 (Or.inl (by decide))⟩

/-- Claim C9: in every iteration that reaches the continue prompt, the
loop exits exactly when the answer matches an entry of the fixed
stop-token whitelist under case-insensitive exact comparison, and every
other answer — including the empty string — makes the loop run again. -/
theorem C9_continue_prompt (env : Env) (st : LoopState) (inp : IterInput)
    (st' : LoopState) (ev : List Event) (r : IterResult)
    (hurl : inp.prompt.url ≠ "")
    (hmk : inp.mkdirErr = none)
    (hit : loopIter env st inp = some (st', ev, r)) :
    (r = .exit ↔ ciMatchesStop inp.contAnswer = true) ∧
    (inp.contAnswer = "" → r = .again) := by
  cases hask : askMode inp.prompt.modeInputs with
  | none => rw [loopIter_none env st inp hask] at hit; cases hit
  | some b =>
      rw [loopIter_some env st inp b hask] at hit
      rw [iterBody_download env st.ffmpeg _ inp inp.prompt.url b hurl hmk] at hit
      simp only [Option.some.injEq, Prod.mk.injEq] at hit
      obtain ⟨-, -, hr⟩ := hit
      subst hr
      rw [contains_lower_eq_ciMatchesStop]
      constructor
      · by_cases hc : ciMatchesStop inp.contAnswer = true
        · simp [hc]
        · simp [hc]
      · intro hemp
        rw [hemp]
        decide

/-- Witness for C9 at a concrete iteration whose continue answer is the
upper-cased stop token NO: the loop exits. -/
theorem C9_witness :
    (IterResult.exit = IterResult.exit ↔ ciMatchesStop "NO" = true) ∧
    (("NO" : String) = "" → IterResult.exit = IterResult.again) :=
  C9_continue_prompt ⟨fun s => s⟩ ⟨"d0", "ff"⟩ C9w_inp ⟨"d0", "ff"⟩ C9w_ev
    .exit (by decide) rfl (by decide)

/-- Claim C10: in an iteration whose entered URL is empty, the override
and the mode answers are still consumed before the empty URL is
detected: the iteration blocks at the mode prompt if no mode answer is
ever accepted, and otherwise it aborts with only the no-URL report —
never invoking the download library — while a non-empty override entered
in that aborted iteration still replaces the destination in the state
carried to all subsequent iterations. -/
theorem C10_empty_url (env : Env) (st : LoopState) (inp : IterInput)
    (hurl : inp.prompt.url = "") :
    (askMode inp.prompt.modeInputs = none → loopIter env st inp = none) ∧
    (∀ b, askMode inp.prompt.modeInputs = some b →
        loopIter env st inp =
          some ({ dest := if inp.prompt.pathOverride == "" then st.dest
                          else inp.prompt.pathOverride,
                  ffmpeg := st.ffmpeg },
                [.printE noUrlMsg], .again)) := by
  constructor
  · intro h
    exact loopIter_none env st inp h
  · intro b h
    rw [loopIter_some env st inp b h]
    simp [iterBody, hurl]

/-- Witness for C10: an empty URL with a non-empty override — the
override lands in the carried state although the iteration aborts. -/
theorem C10_witness :
    loopIter ⟨fun s => s⟩ ⟨"d0", "ff"⟩
        ⟨⟨"", "newdest", ["v"]⟩, none, .success, ""⟩ =
      some ({ dest := if ("newdest" : String) == "" then "d0" else "newdest",
              ffmpeg := "ff" },
            [.printE noUrlMsg], .again) :=
  (C10_empty_url ⟨fun s => s⟩ ⟨"d0", "ff"⟩
    ⟨⟨"", "newdest", ["v"]⟩, none, .success, ""⟩ rfl).2 false rfl

end YTDL
